import Mathlib

/-!
Verification of the CamMatrixCapture repository.

This file gives a shallow embedding of the two Python source files:

* read_sapera_raw.py — the SaperaRawReader class: format detection
  (hinted sizes, then a fixed fallback candidate list), normalization to a
  16-bit sample range, and the Bayer demosaicing front end; and
* web-bridge/web_bridge.py — the HTTP endpoints that invoke the external
  camera executable through subprocess.run and translate its outcome into
  HTTP responses.

Machine integers are modelled as Nat with explicit reductions mod 2 ^ 16
where numpy uint16 arithmetic can wrap.  Python exceptions swallowed by the
surrounding try blocks are modelled as explicit None results, and the
mutation of the reader object's attributes is modelled by returning the
updated state.
-/

/-- State of the Python class SaperaRawReader: the constructor stores the
hinted width, height and bit depth and initialises bytes_per_pixel to 2. -/
structure SaperaRawReader where
  width : Nat
  height : Nat
  bit_depth : Nat
  bytes_per_pixel : Nat
deriving DecidableEq

/-- Image returned by read_raw_file: a height by width row-major grid of
normalized samples (np.frombuffer, reshape, then the bit shifts), stored
here as a flat row-major list. -/
structure Image where
  height : Nat
  width : Nat
  data : List Nat
deriving DecidableEq

/-- np.frombuffer with dtype uint16 on a little-endian platform: each pair
of consecutive bytes yields the sample low + 256 * high.  Only reached by
read_raw_file on buffers of even length. -/
def bytesToU16 : List Nat → List Nat
  | a :: b :: rest => (a + 256 * b) :: bytesToU16 rest
  | _ => []

/-- Sample normalization of read_raw_file: uint8 data is cast to uint16 and
shifted left by 8; uint16 data is shifted left by 4 when bit_depth is 12
(uint16 arithmetic, hence the reduction mod 65536); otherwise it is
returned unchanged. -/
def normSample (bit_depth bpp v : Nat) : Nat :=
  if bpp = 1 then v * 256 % 65536
  else if bit_depth = 12 then v * 16 % 65536
  else v

/-- The frombuffer, reshape and normalize block of read_raw_file, for an
accepted (bytes_per_pixel, width, height) combination. -/
def mkImage (bit_depth bpp w h : Nat) (bytes : List Nat) : Image :=
  { height := h, width := w,
    data := (if bpp = 1 then bytes else bytesToU16 bytes).map (normSample bit_depth bpp) }

/-- The fallback candidates of the auto-detection phase: formats_to_try
(2 bytes per sample, then 1) as the outer loop, crossed with
common_resolutions (full 4112x3008, half 2056x1504, quarter 1028x752) as
the inner loop, in source order.  Entries are
(bytes_per_pixel, width, height). -/
def fallbackCandidates : List (Nat × Nat × Nat) :=
  [(2, 4112, 3008), (2, 2056, 1504), (2, 1028, 752),
   (1, 4112, 3008), (1, 2056, 1504), (1, 1028, 752)]

/-- The auto-detection loops of read_raw_file.  A candidate matches when
width * height equals the floor division actual_size // bytes_per_pixel; on
a match the reader's width, height and bytes_per_pixel are overwritten and
the image is built — except that np.frombuffer raises on a buffer whose
length is not a multiple of the element size, which the enclosing try block
turns into a None result, with the attributes already mutated. -/
def autoDetectLoop (r : SaperaRawReader) (bytes : List Nat) :
    List (Nat × Nat × Nat) → Option Image × SaperaRawReader
  | [] => (none, r)
  | (bpp, w, h) :: rest =>
    if w * h = bytes.length / bpp then
      if bytes.length % bpp = 0 then
        (some (mkImage r.bit_depth bpp w h bytes),
         { r with width := w, height := h, bytes_per_pixel := bpp })
      else
        (none, { r with width := w, height := h, bytes_per_pixel := bpp })
    else autoDetectLoop r bytes rest

/-- The auto-detection phase of read_raw_file over the fixed candidates. -/
def autoDetect (r : SaperaRawReader) (bytes : List Nat) :
    Option Image × SaperaRawReader :=
  autoDetectLoop r bytes fallbackCandidates

/-- The body of read_raw_file once the file bytes have been read: the
hinted-size checks (2 bytes per sample first, then 1, each on exact byte
length equality, mutating bytes_per_pixel on acceptance), then the
auto-detection phase.  Returns the optional image together with the state
of the reader after the call. -/
def decodeBytes (r : SaperaRawReader) (bytes : List Nat) :
    Option Image × SaperaRawReader :=
  if bytes.length = r.width * r.height * 2 then
    (some (mkImage r.bit_depth 2 r.width r.height bytes),
     { r with bytes_per_pixel := 2 })
  else if bytes.length = r.width * r.height * 1 then
    (some (mkImage r.bit_depth 1 r.width r.height bytes),
     { r with bytes_per_pixel := 1 })
  else autoDetect r bytes

/-- read_raw_file.  The argument none models an I/O failure while opening
or reading the file: the surrounding try block catches the exception and
returns None with the reader state untouched.  The argument some bytes is a
successful read of the whole file. -/
def read_raw_file (r : SaperaRawReader) (file : Option (List Nat)) :
    Option Image × SaperaRawReader :=
  match file with
  | none => (none, r)
  | some bytes => decodeBytes r bytes

/-- First fallback candidate whose exact pixel count matches, following the
specification's wording of the acceptance test: the byte count divided by
bytes_per_sample exactly equals width times height, i.e. the byte count
equals width * height * bytes_per_sample. -/
def findExact (n : Nat) : List (Nat × Nat × Nat) → Option (Nat × Nat × Nat)
  | [] => none
  | c :: rest => if n = c.2.1 * c.2.2 * c.1 then some c else findExact n rest

/-- Exact-size acceptance: some format is accepted for the buffer, stated
through the exact size equations of the hinted sizes and of the fallback
candidate list. -/
def AcceptsExact (r : SaperaRawReader) (bytes : List Nat) : Prop :=
  bytes.length = r.width * r.height * 2 ∨
  bytes.length = r.width * r.height * 1 ∨
  ∃ c ∈ fallbackCandidates, bytes.length = c.2.1 * c.2.2 * c.1

instance (r : SaperaRawReader) (bytes : List Nat) :
    Decidable (AcceptsExact r bytes) := by
  unfold AcceptsExact
  infer_instance

/-- The four OpenCV conversion codes used by demosaic_bayer; in cv2 these
are four pairwise distinct integer constants, so they are modelled by an
inductive type with four constructors. -/
inductive CvCode where
  | bayerBG2RGB
  | bayerRG2RGB
  | bayerGB2RGB
  | bayerGR2RGB
deriving DecidableEq

/-- pattern_map of demosaic_bayer: the dictionary from the Bayer pattern
string to the cv2 conversion code, with a lookup that returns nothing for a
key outside the four entries. -/
def pattern_map (p : String) : Option CvCode :=
  if p = "RGGB" then some CvCode.bayerBG2RGB
  else if p = "BGGR" then some CvCode.bayerRG2RGB
  else if p = "GRBG" then some CvCode.bayerGB2RGB
  else if p = "GBRG" then some CvCode.bayerGR2RGB
  else none

/-- Result of demosaic_bayer.  cv2.cvtColor is an external library call,
modelled by recording which conversion code was selected together with the
8-bit plane handed to it (each sample shifted right by 8 and cast to
uint8). -/
structure RGBImage where
  height : Nat
  width : Nat
  code : CvCode
  bayer8 : List Nat
deriving DecidableEq

/-- demosaic_bayer: truncates every sample to its high byte, then looks the
pattern up; an unknown pattern yields None before any conversion call. -/
def demosaic_bayer (img : Image) (p : String) : Option RGBImage :=
  let bayer8 := img.data.map (fun v => v / 256)
  match pattern_map p with
  | none => none
  | some code =>
    some { height := img.height, width := img.width, code := code, bayer8 := bayer8 }

/-- Outcome of one subprocess.run invocation in web_bridge.py, as a
function of the timeout it was granted: the wait can expire
(subprocess.TimeoutExpired), the invocation can fail outright (any other
exception), or the process completes with a return code and captured
standard output.  Whether json.loads accepts that standard output is
carried alongside it as a flag, modelling the library parser. -/
inductive ProcResult where
  | timedOut
  | execError (msg : String)
  | completed (returncode : Int) (stdout : String) (stdoutIsJson : Bool)
deriving DecidableEq

/-- An HTTP response of the bridge: a JSON payload passed through, or a
FastAPI HTTPException carrying a status code and a detail message. -/
inductive BridgeResponse where
  | ok (payload : String)
  | httpError (status : Nat) (detail : String)
deriving DecidableEq

/-- run_camera_command: one synchronous subprocess invocation with the
given timeout (the Python parameter default is 60).  TimeoutExpired becomes
HTTPException 408 and any other invocation failure HTTPException 500, both
propagating out of the calling endpoint; a completed process is handed back
to the endpoint. -/
def run_camera_command (proc : Nat → ProcResult) (timeout : Nat) :
    Except BridgeResponse (Int × String × Bool) :=
  match proc timeout with
  | ProcResult.timedOut =>
    Except.error (BridgeResponse.httpError 408 "Camera operation timed out")
  | ProcResult.execError msg =>
    Except.error (BridgeResponse.httpError 500 ("Camera operation failed: " ++ msg))
  | ProcResult.completed rc out isJson => Except.ok (rc, out, isJson)

/-- GET /api/cameras: list all cameras, default timeout 60. -/
def list_cameras (proc : Nat → ProcResult) : BridgeResponse :=
  match run_camera_command proc 60 with
  | Except.error e => e
  | Except.ok (rc, out, isJson) =>
    if rc ≠ 0 then BridgeResponse.httpError 500 "Failed to list cameras"
    else if isJson then BridgeResponse.ok out
    else BridgeResponse.httpError 500 "Invalid response from camera system"

/-- POST /api/cameras/capture-all: capture from all cameras with timeout
120.  On success the parsed JSON is returned with an added system_info
object; the additive metadata is modelled as a tag appended to the
payload, since no claim inspects its contents. -/
def capture_all_cameras (proc : Nat → ProcResult) : BridgeResponse :=
  match run_camera_command proc 120 with
  | Except.error e => e
  | Except.ok (rc, out, isJson) =>
    if rc ≠ 0 then BridgeResponse.httpError 500 "Capture operation failed"
    else if isJson then BridgeResponse.ok (out ++ "+system_info")
    else BridgeResponse.httpError 500 "Invalid response from capture operation"

/-- GET /api/cameras/camera_id: get parameters of one camera, default
timeout 60.  A non-zero exit is reported as HTTP 404 for this endpoint. -/
def get_camera_parameters (camera_id : String) (proc : Nat → ProcResult) :
    BridgeResponse :=
  match run_camera_command proc 60 with
  | Except.error e => e
  | Except.ok (rc, out, isJson) =>
    if rc ≠ 0 then BridgeResponse.httpError 404 ("Camera " ++ camera_id ++ " not found")
    else if isJson then BridgeResponse.ok out
    else BridgeResponse.httpError 500 "Invalid response from camera system"

/-- POST /api/cameras/camera_id/capture: capture from a single camera with
an explicit timeout of 60. -/
def capture_single_camera (camera_id : String) (proc : Nat → ProcResult) :
    BridgeResponse :=
  match run_camera_command proc 60 with
  | Except.error e => e
  | Except.ok (rc, out, isJson) =>
    if rc ≠ 0 then
      BridgeResponse.httpError 500 ("Capture failed for camera " ++ camera_id)
    else if isJson then BridgeResponse.ok out
    else BridgeResponse.httpError 500 "Invalid response from capture operation"
-- helper lemmas under test

lemma findExact_isSome_iff (n : Nat) (l : List (Nat × Nat × Nat)) :
    (findExact n l).isSome = true ↔ ∃ c ∈ l, n = c.2.1 * c.2.2 * c.1 := by
  induction l with
  | nil => simp [findExact]
  | cons c rest ih =>
    by_cases h : n = c.2.1 * c.2.2 * c.1
    · simp [findExact, h]
    · simp [findExact, h, ih]

lemma mem_fallback_bpp (c : Nat × Nat × Nat) (h : c ∈ fallbackCandidates) :
    (c.1 = 1 ∨ c.1 = 2) ∧ 0 < c.2.1 * c.2.2 := by
  fin_cases h <;> simp

lemma autoDetectLoop_fst_congr (bytes : List Nat) (l : List (Nat × Nat × Nat))
    (r r1 : SaperaRawReader) (h : r.bit_depth = r1.bit_depth) :
    (autoDetectLoop r bytes l).1 = (autoDetectLoop r1 bytes l).1 := by
  induction l with
  | nil => rfl
  | cons c rest ih =>
    obtain ⟨bpp, w, hh⟩ := c
    simp only [autoDetectLoop]
    split_ifs <;> simp [h, ih]

lemma findExact_odd_none (n : Nat) (l : List (Nat × Nat × Nat))
    (hl : ∀ c ∈ l, (c.1 = 1 ∨ c.1 = 2) ∧ c.2.1 * c.2.2 % 2 = 0)
    (hn : n % 2 = 1) : findExact n l = none := by
  induction l with
  | nil => rfl
  | cons c rest ih =>
    obtain ⟨bpp, w, hh⟩ := c
    have hc := hl (bpp, w, hh) (List.mem_cons_self _ rest)
    have hrest : ∀ d ∈ rest, (d.1 = 1 ∨ d.1 = 2) ∧ d.2.1 * d.2.2 % 2 = 0 :=
      fun d hd => hl d (List.mem_cons_of_mem _ hd)
    dsimp only at hc
    simp only [findExact]
    dsimp only
    have hne : ¬ n = w * hh * bpp := by
      rcases hc.1 with h1 | h1 <;> subst h1 <;> omega
    rw [if_neg hne]
    exact ih hrest

lemma autoDetectLoop_dims (r : SaperaRawReader) (bytes : List Nat)
    (l : List (Nat × Nat × Nat))
    (hl : ∀ c ∈ l, (c.1 = 1 ∨ c.1 = 2) ∧ c.2.1 * c.2.2 % 2 = 0) :
    ((autoDetectLoop r bytes l).1).map (fun i => (i.width, i.height)) =
      (findExact bytes.length l).map (fun c => (c.2.1, c.2.2)) := by
  induction l with
  | nil => rfl
  | cons c rest ih =>
    obtain ⟨bpp, w, hh⟩ := c
    have hc := hl (bpp, w, hh) (List.mem_cons_self _ rest)
    have hrest : ∀ d ∈ rest, (d.1 = 1 ∨ d.1 = 2) ∧ d.2.1 * d.2.2 % 2 = 0 :=
      fun d hd => hl d (List.mem_cons_of_mem _ hd)
    dsimp only at hc
    simp only [autoDetectLoop, findExact]
    dsimp only
    rcases hc.1 with h1 | h1 <;> subst h1
    · by_cases hm : w * hh = bytes.length / 1
      · have he : bytes.length = w * hh * 1 := by omega
        rw [if_pos hm, if_pos he, if_pos (show bytes.length % 1 = 0 by omega)]
        simp [mkImage]
      · have he : ¬ bytes.length = w * hh * 1 := by omega
        rw [if_neg hm, if_neg he]
        exact ih hrest
    · by_cases hm : w * hh = bytes.length / 2
      · by_cases hev : bytes.length % 2 = 0
        · have he : bytes.length = w * hh * 2 := by omega
          rw [if_pos hm, if_pos he, if_pos hev]
          simp [mkImage]
        · have he : ¬ bytes.length = w * hh * 2 := by omega
          rw [if_pos hm, if_neg he, if_neg hev,
            findExact_odd_none bytes.length rest hrest (by omega)]
          rfl
      · have he : ¬ bytes.length = w * hh * 2 := by omega
        rw [if_neg hm, if_neg he]
        exact ih hrest

lemma fallback_all_even :
    ∀ c ∈ fallbackCandidates, (c.1 = 1 ∨ c.1 = 2) ∧ c.2.1 * c.2.2 % 2 = 0 := by
  decide

lemma autoDetect_dims (r : SaperaRawReader) (bytes : List Nat) :
    ((autoDetect r bytes).1).map (fun i => (i.width, i.height)) =
      (findExact bytes.length fallbackCandidates).map (fun c => (c.2.1, c.2.2)) :=
  autoDetectLoop_dims r bytes fallbackCandidates fallback_all_even

lemma autoDetectLoop_cases (r : SaperaRawReader) (bytes : List Nat)
    (l : List (Nat × Nat × Nat)) :
    autoDetectLoop r bytes l = (none, r) ∨
    ∃ bpp w h, (bpp, w, h) ∈ l ∧ w * h = bytes.length / bpp ∧
      ((bytes.length % bpp = 0 ∧
        autoDetectLoop r bytes l =
          (some (mkImage r.bit_depth bpp w h bytes),
           { r with width := w, height := h, bytes_per_pixel := bpp })) ∨
       (bytes.length % bpp ≠ 0 ∧
        autoDetectLoop r bytes l =
          (none, { r with width := w, height := h, bytes_per_pixel := bpp }))) := by
  induction l with
  | nil => left; rfl
  | cons c rest ih =>
    obtain ⟨bpp, w, hh⟩ := c
    by_cases hm : w * hh = bytes.length / bpp
    · right
      refine ⟨bpp, w, hh, List.mem_cons_self _ rest, hm, ?_⟩
      by_cases hev : bytes.length % bpp = 0
      · left
        exact ⟨hev, by simp [autoDetectLoop, hm, hev]⟩
      · right
        exact ⟨hev, by simp [autoDetectLoop, hm, hev]⟩
    · have hstep : autoDetectLoop r bytes ((bpp, w, hh) :: rest) =
          autoDetectLoop r bytes rest := by
        simp [autoDetectLoop, hm]
      rw [hstep]
      rcases ih with h | ⟨b, x, y, hmem, hcond, hres⟩
      · left; exact h
      · right; exact ⟨b, x, y, List.mem_cons_of_mem _ hmem, hcond, hres⟩

lemma decode_some_data (r : SaperaRawReader) (bytes : List Nat) (img : Image)
    (r1 : SaperaRawReader) (h : decodeBytes r bytes = (some img, r1)) :
    (r1.bytes_per_pixel = 1 ∨ r1.bytes_per_pixel = 2) ∧
    img.data = (if r1.bytes_per_pixel = 1 then bytes else bytesToU16 bytes).map
      (normSample r.bit_depth r1.bytes_per_pixel) := by
  by_cases hA : bytes.length = r.width * r.height * 2
  · rw [decodeBytes, if_pos hA] at h
    simp only [Prod.mk.injEq, Option.some.injEq] at h
    obtain ⟨h1, h2⟩ := h
    subst h1
    subst h2
    exact ⟨Or.inr rfl, by simp [mkImage]⟩
  · by_cases hB : bytes.length = r.width * r.height * 1
    · rw [decodeBytes, if_neg hA, if_pos hB] at h
      simp only [Prod.mk.injEq, Option.some.injEq] at h
      obtain ⟨h1, h2⟩ := h
      subst h1
      subst h2
      exact ⟨Or.inl rfl, by simp [mkImage]⟩
    · rw [decodeBytes, if_neg hA, if_neg hB, autoDetect] at h
      rcases autoDetectLoop_cases r bytes fallbackCandidates with
        hc | ⟨bpp, w, hh, hmem, hcond, ⟨hev, hres⟩ | ⟨hev, hres⟩⟩
      · rw [hc] at h
        simp at h
      · rw [hres] at h
        simp only [Prod.mk.injEq, Option.some.injEq] at h
        obtain ⟨h1, h2⟩ := h
        subst h1
        subst h2
        have hb := (mem_fallback_bpp _ hmem).1
        dsimp only at hb
        exact ⟨hb, by simp [mkImage]⟩
      · rw [hres] at h
        simp at h

lemma decode_isSome_iff (r : SaperaRawReader) (bytes : List Nat) :
    ((decodeBytes r bytes).1.isSome = true) ↔ AcceptsExact r bytes := by
  by_cases hA : bytes.length = r.width * r.height * 2
  · rw [decodeBytes, if_pos hA]
    simp [AcceptsExact, hA]
  · by_cases hB : bytes.length = r.width * r.height * 1
    · rw [decodeBytes, if_neg hA, if_pos hB]
      simp [AcceptsExact, hB]
    · have hd := autoDetect_dims r bytes
      have hiso : (autoDetect r bytes).1.isSome =
          (findExact bytes.length fallbackCandidates).isSome := by
        cases h1 : (autoDetect r bytes).1 <;>
          cases h2 : findExact bytes.length fallbackCandidates <;>
            rw [h1, h2] at hd <;> simp_all
      have hB1 : bytes.length ≠ r.width * r.height := by omega
      rw [decodeBytes, if_neg hA, if_neg hB]
      rw [show ((autoDetect r bytes).1.isSome = true) =
          ((findExact bytes.length fallbackCandidates).isSome = true) by rw [hiso]]
      rw [findExact_isSome_iff]
      simp [AcceptsExact, hA, hB, hB1]

lemma decodeBytes_fst_idem (r : SaperaRawReader) (bytes : List Nat) :
    (decodeBytes (decodeBytes r bytes).2 bytes).1 = (decodeBytes r bytes).1 := by
  by_cases hA : bytes.length = r.width * r.height * 2
  · have hstep : decodeBytes r bytes =
        (some (mkImage r.bit_depth 2 r.width r.height bytes),
         { r with bytes_per_pixel := 2 }) := by
      rw [decodeBytes, if_pos hA]
    rw [hstep]
    dsimp only
    rw [decodeBytes]
    dsimp only
    rw [if_pos hA]
  · by_cases hB : bytes.length = r.width * r.height * 1
    · have hstep : decodeBytes r bytes =
          (some (mkImage r.bit_depth 1 r.width r.height bytes),
           { r with bytes_per_pixel := 1 }) := by
        rw [decodeBytes, if_neg hA, if_pos hB]
      rw [hstep]
      dsimp only
      rw [decodeBytes]
      dsimp only
      rw [if_neg hA, if_pos hB]
    · have hstep : decodeBytes r bytes = autoDetect r bytes := by
        rw [decodeBytes, if_neg hA, if_neg hB]
      rcases autoDetectLoop_cases r bytes fallbackCandidates with
        hc | ⟨bpp, w, hh, hmem, hcond, ⟨hev, hres⟩ | ⟨hev, hres⟩⟩
      · have hres2 : decodeBytes r bytes = (none, r) := by
          rw [hstep, autoDetect, hc]
        rw [hres2]
        dsimp only
        rw [decodeBytes, if_neg hA, if_neg hB, autoDetect, hc]
      · have hres2 : decodeBytes r bytes =
            (some (mkImage r.bit_depth bpp w hh bytes),
             { r with width := w, height := hh, bytes_per_pixel := bpp }) := by
          rw [hstep, autoDetect, hres]
        rw [hres2]
        dsimp only
        have hb := (mem_fallback_bpp _ hmem).1
        have hpos := (mem_fallback_bpp _ hmem).2
        dsimp only at hb hpos
        rw [decodeBytes]
        dsimp only
        rcases hb with hb | hb <;> subst hb
        · have hne1 : ¬ bytes.length = w * hh * 2 := by omega
          have hB2 : bytes.length = w * hh * 1 := by omega
          rw [if_neg hne1, if_pos hB2]
        · have hA2 : bytes.length = w * hh * 2 := by omega
          rw [if_pos hA2]
      · have hres2 : decodeBytes r bytes =
            (none, { r with width := w, height := hh, bytes_per_pixel := bpp }) := by
          rw [hstep, autoDetect, hres]
        rw [hres2]
        dsimp only
        have hb := (mem_fallback_bpp _ hmem).1
        have hpos := (mem_fallback_bpp _ hmem).2
        dsimp only at hb hpos
        rcases hb with hb | hb <;> subst hb
        · exact absurd (Nat.mod_one bytes.length) hev
        · have hne1 : ¬ bytes.length = w * hh * 2 := by omega
          have hne2 : ¬ bytes.length = w * hh * 1 := by omega
          rw [decodeBytes]
          dsimp only
          rw [if_neg hne1, if_neg hne2, autoDetect]
          rw [autoDetectLoop_fst_congr bytes fallbackCandidates
              { r with width := w, height := hh, bytes_per_pixel := 2 } r rfl, hres]

/-- C1: when neither hinted size matches, read_raw_file falls back to the
fixed ordered candidate list (full, half, quarter resolution crossed with 2
then 1 bytes per sample) and returns a frame exactly for the first
candidate whose exact pixel count matches the byte length; moreover no two
distinct candidates can match the same byte length, so the first-match
tie-break is unambiguous for this list. -/
theorem C1_fallback_first_exact_match (r : SaperaRawReader) (bytes : List Nat)
    (h2 : bytes.length ≠ r.width * r.height * 2)
    (h1 : bytes.length ≠ r.width * r.height * 1) :
    ((decodeBytes r bytes).1).map (fun i => (i.width, i.height)) =
      (findExact bytes.length fallbackCandidates).map (fun c => (c.2.1, c.2.2)) ∧
    ∀ c ∈ fallbackCandidates, ∀ c1 ∈ fallbackCandidates,
      bytes.length = c.2.1 * c.2.2 * c.1 → bytes.length = c1.2.1 * c1.2.2 * c1.1 →
      c = c1 := by
  constructor
  · rw [decodeBytes, if_neg h2, if_neg h1]
    exact autoDetect_dims r bytes
  · intro c hc c1 hc1 e e1
    fin_cases hc <;> fin_cases hc1 <;> dsimp only at e e1 <;>
      first | rfl | (exfalso; omega)

/-- Witness for C1 at a concrete input rejected by both hinted sizes. -/
theorem C1_fallback_first_exact_match_witness :
    ((decodeBytes ⟨5, 5, 12, 2⟩ [0, 0, 0]).1).map (fun i => (i.width, i.height)) =
      (findExact (List.length [0, 0, 0]) fallbackCandidates).map
        (fun c => (c.2.1, c.2.2)) :=
  (C1_fallback_first_exact_match ⟨5, 5, 12, 2⟩ [0, 0, 0] (by decide) (by decide)).1

/-- C2: the hinted width and height are tried first at 2 bytes per sample,
then at 1 byte per sample, each accepted only on exact byte-length
equality; the 2-byte interpretation wins when its size matches, and when
neither matches the decoder proceeds to auto-detection. -/
theorem C2_hinted_exact_priority (r : SaperaRawReader) (bytes : List Nat) :
    (bytes.length = r.width * r.height * 2 →
      decodeBytes r bytes =
        (some (mkImage r.bit_depth 2 r.width r.height bytes),
         { r with bytes_per_pixel := 2 })) ∧
    (bytes.length ≠ r.width * r.height * 2 → bytes.length = r.width * r.height * 1 →
      decodeBytes r bytes =
        (some (mkImage r.bit_depth 1 r.width r.height bytes),
         { r with bytes_per_pixel := 1 })) ∧
    (bytes.length ≠ r.width * r.height * 2 → bytes.length ≠ r.width * r.height * 1 →
      decodeBytes r bytes = autoDetect r bytes) := by
  refine ⟨fun hA => ?_, fun hA hB => ?_, fun hA hB => ?_⟩
  · rw [decodeBytes, if_pos hA]
  · rw [decodeBytes, if_neg hA, if_pos hB]
  · rw [decodeBytes, if_neg hA, if_neg hB]

/-- Witness for C2 at a concrete buffer matching the hinted 2-byte size. -/
theorem C2_hinted_exact_priority_witness :
    decodeBytes ⟨2, 1, 12, 2⟩ [1, 2, 3, 4] =
      (some (mkImage 12 2 2 1 [1, 2, 3, 4]),
       { width := 2, height := 1, bit_depth := 12, bytes_per_pixel := 2 }) :=
  (C2_hinted_exact_priority ⟨2, 1, 12, 2⟩ [1, 2, 3, 4]).1 (by decide)

/-- C3 counterexample: read_raw_file does not leave the reader
configuration unchanged — accepting the hinted 1-byte format overwrites
bytes_per_pixel, so the state after the call differs from the state
before. -/
theorem C3_mutates_state_counterexample :
    (read_raw_file ⟨2, 1, 12, 2⟩ (some [7, 8])).2 ≠
      (⟨2, 1, 12, 2⟩ : SaperaRawReader) := by decide

/-- C3 amended: read_raw_file mutates the reader configuration
(bytes_per_pixel on any acceptance, width and height on fallback
acceptance), but the returned frame is reproducible: calling the decoder
again on the mutated reader with the same input yields the same result as
the first call on the fresh reader. -/
theorem C3_second_call_same_result (r : SaperaRawReader)
    (file : Option (List Nat)) :
    (read_raw_file (read_raw_file r file).2 file).1 = (read_raw_file r file).1 := by
  cases file with
  | none => rfl
  | some bytes => exact decodeBytes_fst_idem r bytes

/-- C4 counterexample: an I/O failure and an unrecognized-format failure
produce identical observable results (the sentinel None), so the two
outcomes are not distinguishable by the caller. -/
theorem C4_failures_indistinguishable_counterexample :
    (read_raw_file ⟨4112, 3008, 12, 2⟩ none).1 =
      (read_raw_file ⟨4112, 3008, 12, 2⟩ (some [0, 0, 0])).1 := by decide

/-- C4 amended: both failure modes — failing to read the source bytes and
finding no matching byte-length/resolution combination — yield the same
sentinel None; they differ only in logged messages, not in the value the
caller receives. -/
theorem C4_single_sentinel (r : SaperaRawReader) (bytes : List Nat)
    (h : ¬ AcceptsExact r bytes) :
    (read_raw_file r none).1 = none ∧ (read_raw_file r (some bytes)).1 = none ∧
    (read_raw_file r none).1 = (read_raw_file r (some bytes)).1 := by
  have h2 : (decodeBytes r bytes).1 = none := by
    rcases ho : (decodeBytes r bytes).1 with _ | img
    · rfl
    · exact absurd ((decode_isSome_iff r bytes).mp (by rw [ho]; rfl)) h
  exact ⟨rfl, h2, by simp [read_raw_file, h2]⟩

/-- Witness for C4 amended at a concrete unaccepted buffer. -/
theorem C4_single_sentinel_witness :
    (read_raw_file ⟨4112, 3008, 12, 2⟩ none).1 = none ∧
    (read_raw_file ⟨4112, 3008, 12, 2⟩ (some [9])).1 = none ∧
    (read_raw_file ⟨4112, 3008, 12, 2⟩ none).1 =
      (read_raw_file ⟨4112, 3008, 12, 2⟩ (some [9])).1 :=
  C4_single_sentinel ⟨4112, 3008, 12, 2⟩ [9] (by decide)

/-- C5: on every accepted frame the normalization is exact integer
arithmetic — an 8-bit stored sample v becomes v * 256, a 12-bit sample
stored in 16 bits becomes v * 16, and a genuine 16-bit sample (bit depth
other than 12) passes through unchanged. -/
theorem C5_normalization (r : SaperaRawReader) (bytes : List Nat) (img : Image)
    (r1 : SaperaRawReader) (h : decodeBytes r bytes = (some img, r1)) :
    (r1.bytes_per_pixel = 1 → (∀ b ∈ bytes, b < 256) →
      img.data = bytes.map (fun v => v * 256)) ∧
    (r1.bytes_per_pixel = 2 → r.bit_depth = 12 →
      (∀ v ∈ bytesToU16 bytes, v < 4096) →
      img.data = (bytesToU16 bytes).map (fun v => v * 16)) ∧
    (r1.bytes_per_pixel = 2 → r.bit_depth ≠ 12 → img.data = bytesToU16 bytes) := by
  obtain ⟨hbpp, hdata⟩ := decode_some_data r bytes img r1 h
  refine ⟨fun h1 hv => ?_, fun h1 h12 hv => ?_, fun h1 h12 => ?_⟩
  · rw [hdata, h1, if_pos rfl]
    refine List.map_congr_left ?_
    intro b hbm
    have hlt := hv b hbm
    have hns : normSample r.bit_depth 1 b = b * 256 % 65536 := rfl
    rw [hns]
    omega
  · rw [hdata, h1, h12, if_neg (by omega : ¬ (2 : Nat) = 1)]
    refine List.map_congr_left ?_
    intro v hvm
    have hlt := hv v hvm
    have hns : normSample 12 2 v = v * 16 % 65536 := rfl
    rw [hns]
    omega
  · rw [hdata, h1, if_neg (by omega : ¬ (2 : Nat) = 1)]
    have hrw : ∀ v ∈ bytesToU16 bytes, normSample r.bit_depth 2 v = id v := by
      intro v _
      simp [normSample, h12]
    rw [List.map_congr_left hrw, List.map_id]

/-- Witness for C5 at a concrete 12-bit 2-byte frame. -/
theorem C5_normalization_witness :
    (mkImage 12 2 2 1 [1, 2, 3, 4]).data =
      (bytesToU16 [1, 2, 3, 4]).map (fun v => v * 16) :=
  (C5_normalization ⟨2, 1, 12, 2⟩ [1, 2, 3, 4] (mkImage 12 2 2 1 [1, 2, 3, 4])
    ⟨2, 1, 12, 2⟩ (by decide)).2.1 (by decide) (by decide) (by decide)

/-- C6 counterexample: with hinted dimensions 1 x 1, a buffer of length
1 * 1 * 2 - 1 = 1 does not fail — it is accepted by the hinted 1-byte
path — refuting the claim that a one-byte-short buffer always fails. -/
theorem C6_one_short_accepted_counterexample :
    (List.length [(5 : Nat)] = 1 * 1 * 2 - 1) ∧
    ((decodeBytes ⟨1, 1, 12, 2⟩ [5]).1.isSome = true) := by decide

/-- C6 amended: whenever the hinted pixel count is at least 2, a buffer one
byte short of the 2-byte hinted size always yields the failure sentinel;
and whenever the hinted pixel count is at least 1, an empty buffer always
yields the failure sentinel. -/
theorem C6_short_and_empty_fail (r : SaperaRawReader) :
    (2 ≤ r.width * r.height →
      ∀ bytes : List Nat, bytes.length = r.width * r.height * 2 - 1 →
        (decodeBytes r bytes).1 = none) ∧
    (1 ≤ r.width * r.height → (decodeBytes r ([] : List Nat)).1 = none) := by
  constructor
  · intro hwh bytes hlen
    have hA : bytes.length ≠ r.width * r.height * 2 := by omega
    have hB : bytes.length ≠ r.width * r.height * 1 := by omega
    have hodd : bytes.length % 2 = 1 := by omega
    have hnone : findExact bytes.length fallbackCandidates = none :=
      findExact_odd_none bytes.length fallbackCandidates fallback_all_even hodd
    rw [decodeBytes, if_neg hA, if_neg hB]
    have hd := autoDetect_dims r bytes
    rw [hnone] at hd
    exact Option.map_eq_none'.mp hd
  · intro hwh
    have hA : ([] : List Nat).length ≠ r.width * r.height * 2 := by
      simp only [List.length_nil]
      omega
    have hB : ([] : List Nat).length ≠ r.width * r.height * 1 := by
      simp only [List.length_nil]
      omega
    rw [decodeBytes, if_neg hA, if_neg hB]
    have hd := autoDetect_dims r ([] : List Nat)
    rw [show findExact ([] : List Nat).length fallbackCandidates = none by decide] at hd
    exact Option.map_eq_none'.mp hd

/-- Witness for C6 amended at hinted dimensions 2 x 1. -/
theorem C6_short_and_empty_fail_witness :
    (decodeBytes ⟨2, 1, 12, 2⟩ [0, 0, 0]).1 = none ∧
    (decodeBytes ⟨2, 1, 12, 2⟩ ([] : List Nat)).1 = none :=
  ⟨(C6_short_and_empty_fail ⟨2, 1, 12, 2⟩).1 (by decide) [0, 0, 0] (by decide),
   (C6_short_and_empty_fail ⟨2, 1, 12, 2⟩).2 (by decide)⟩

/-- C7: a pattern outside the four recognized Bayer arrangements makes
demosaic_bayer fail with None before any conversion, and the four
recognized patterns select four pairwise distinct conversion codes. -/
theorem C7_pattern_gate (img : Image) (p : String)
    (hp : p ≠ "RGGB" ∧ p ≠ "BGGR" ∧ p ≠ "GRBG" ∧ p ≠ "GBRG") :
    demosaic_bayer img p = none ∧
    List.Pairwise (fun a b => a ≠ b)
      (["RGGB", "BGGR", "GRBG", "GBRG"].map
        (fun q => Option.map RGBImage.code (demosaic_bayer img q))) := by
  constructor
  · have hm : pattern_map p = none := by
      rw [pattern_map, if_neg hp.1, if_neg hp.2.1, if_neg hp.2.2.1, if_neg hp.2.2.2]
    simp [demosaic_bayer, hm]
  · have e1 : Option.map RGBImage.code (demosaic_bayer img "RGGB") =
        some CvCode.bayerBG2RGB := rfl
    have e2 : Option.map RGBImage.code (demosaic_bayer img "BGGR") =
        some CvCode.bayerRG2RGB := rfl
    have e3 : Option.map RGBImage.code (demosaic_bayer img "GRBG") =
        some CvCode.bayerGB2RGB := rfl
    have e4 : Option.map RGBImage.code (demosaic_bayer img "GBRG") =
        some CvCode.bayerGR2RGB := rfl
    simp only [List.map_cons, List.map_nil, e1, e2, e3, e4]
    decide

/-- Witness for C7 at the unknown pattern XYZZY. -/
theorem C7_pattern_gate_witness :
    demosaic_bayer ⟨1, 1, [0]⟩ "XYZZY" = none :=
  (C7_pattern_gate ⟨1, 1, [0]⟩ "XYZZY" (by decide)).1

/-- C8 counterexample: on the get-parameters endpoint a non-zero subprocess
exit is reported as HTTP 404, not as a 500-equivalent result, refuting the
claim that every endpoint maps non-zero exit to a 500-equivalent error. -/
theorem C8_get_params_404_counterexample :
    get_camera_parameters "1" (fun _ => ProcResult.completed 1 "out" true) =
      BridgeResponse.httpError 404 "Camera 1 not found" := by decide

/-- C8 amended: every endpoint performs one synchronous invocation whose
response depends only on the subprocess outcome at its own timeout (60 by
default, 120 for capture-all); a timeout yields HTTP 408, a non-zero exit
yields HTTP 500 carrying an operation-specific message on the list and
capture endpoints but HTTP 404 on the get-parameters endpoint, and a zero
exit with unparsable stdout yields a distinct HTTP 500 invalid-response
message; the three failure responses are pairwise distinguishable. -/
theorem C8_bridge_failure_modes (camera_id : String) (rc : Int) (out : String)
    (hrc : rc ≠ 0) :
    (list_cameras (fun _ => ProcResult.timedOut) =
      BridgeResponse.httpError 408 "Camera operation timed out") ∧
    (capture_all_cameras (fun _ => ProcResult.timedOut) =
      BridgeResponse.httpError 408 "Camera operation timed out") ∧
    (get_camera_parameters camera_id (fun _ => ProcResult.timedOut) =
      BridgeResponse.httpError 408 "Camera operation timed out") ∧
    (capture_single_camera camera_id (fun _ => ProcResult.timedOut) =
      BridgeResponse.httpError 408 "Camera operation timed out") ∧
    (list_cameras (fun _ => ProcResult.completed rc out true) =
      BridgeResponse.httpError 500 "Failed to list cameras") ∧
    (capture_all_cameras (fun _ => ProcResult.completed rc out true) =
      BridgeResponse.httpError 500 "Capture operation failed") ∧
    (get_camera_parameters camera_id (fun _ => ProcResult.completed rc out true) =
      BridgeResponse.httpError 404 ("Camera " ++ camera_id ++ " not found")) ∧
    (capture_single_camera camera_id (fun _ => ProcResult.completed rc out true) =
      BridgeResponse.httpError 500 ("Capture failed for camera " ++ camera_id)) ∧
    (list_cameras (fun _ => ProcResult.completed 0 out false) =
      BridgeResponse.httpError 500 "Invalid response from camera system") ∧
    (capture_all_cameras (fun _ => ProcResult.completed 0 out false) =
      BridgeResponse.httpError 500 "Invalid response from capture operation") ∧
    (get_camera_parameters camera_id (fun _ => ProcResult.completed 0 out false) =
      BridgeResponse.httpError 500 "Invalid response from camera system") ∧
    (capture_single_camera camera_id (fun _ => ProcResult.completed 0 out false) =
      BridgeResponse.httpError 500 "Invalid response from capture operation") ∧
    (∀ p q : Nat → ProcResult, p 60 = q 60 → list_cameras p = list_cameras q) ∧
    (∀ p q : Nat → ProcResult, p 120 = q 120 →
      capture_all_cameras p = capture_all_cameras q) ∧
    (list_cameras (fun _ => ProcResult.timedOut) ≠
      list_cameras (fun _ => ProcResult.completed rc out true)) ∧
    (list_cameras (fun _ => ProcResult.timedOut) ≠
      list_cameras (fun _ => ProcResult.completed 0 out false)) ∧
    (list_cameras (fun _ => ProcResult.completed rc out true) ≠
      list_cameras (fun _ => ProcResult.completed 0 out false)) := by
  have hlist : list_cameras (fun _ => ProcResult.completed rc out true) =
      BridgeResponse.httpError 500 "Failed to list cameras" := by
    simp [list_cameras, run_camera_command, hrc]
  have hall : capture_all_cameras (fun _ => ProcResult.completed rc out true) =
      BridgeResponse.httpError 500 "Capture operation failed" := by
    simp [capture_all_cameras, run_camera_command, hrc]
  have hget : get_camera_parameters camera_id (fun _ => ProcResult.completed rc out true) =
      BridgeResponse.httpError 404 ("Camera " ++ camera_id ++ " not found") := by
    simp [get_camera_parameters, run_camera_command, hrc]
  have hone : capture_single_camera camera_id (fun _ => ProcResult.completed rc out true) =
      BridgeResponse.httpError 500 ("Capture failed for camera " ++ camera_id) := by
    simp [capture_single_camera, run_camera_command, hrc]
  have hlistJ : list_cameras (fun _ => ProcResult.completed 0 out false) =
      BridgeResponse.httpError 500 "Invalid response from camera system" := rfl
  refine ⟨rfl, rfl, rfl, rfl, hlist, hall, hget, hone, rfl, rfl, rfl, rfl,
    ?_, ?_, ?_, ?_, ?_⟩
  · intro p q hpq
    simp only [list_cameras, run_camera_command, hpq]
  · intro p q hpq
    simp only [capture_all_cameras, run_camera_command, hpq]
  · rw [hlist]
    decide
  · rw [hlistJ]
    decide
  · rw [hlist, hlistJ]
    decide

/-- Witness for C8 amended at a concrete non-zero exit code. -/
theorem C8_bridge_failure_modes_witness :
    list_cameras (fun _ => ProcResult.timedOut) =
      BridgeResponse.httpError 408 "Camera operation timed out" :=
  (C8_bridge_failure_modes "1" 1 "x" (by decide)).1

/-- C9: read_raw_file is total at its boundary — it returns a frame exactly
when the input was read and some size combination is accepted, and every
other outcome (I/O failure, unrecognized format, the internal frombuffer
exception on an odd-length fallback match) is the sentinel None rather than
an exception crossing the boundary. -/
theorem C9_sentinel_totality (r : SaperaRawReader) (file : Option (List Nat)) :
    ((read_raw_file r file).1.isSome = true) ↔
      ∃ bytes, file = some bytes ∧ AcceptsExact r bytes := by
  cases file with
  | none => simp [read_raw_file]
  | some bytes => simp [read_raw_file, decode_isSome_iff]

/-- C10: for a frame accepted through the 1-byte-per-sample path, the
8-bit truncation performed by demosaic_bayer recovers exactly the original
stored byte values: truncation after normalization is the identity. -/
theorem C10_eight_bit_roundtrip (r : SaperaRawReader) (bytes : List Nat)
    (img : Image) (r1 : SaperaRawReader)
    (h : decodeBytes r bytes = (some img, r1))
    (hb : r1.bytes_per_pixel = 1) (hv : ∀ b ∈ bytes, b < 256) :
    img.data.map (fun v => v / 256) = bytes ∧
    ∀ p rgb, demosaic_bayer img p = some rgb → rgb.bayer8 = bytes := by
  obtain ⟨_, hdata⟩ := decode_some_data r bytes img r1 h
  rw [hb, if_pos rfl] at hdata
  have hmain : img.data.map (fun v => v / 256) = bytes := by
    rw [hdata, List.map_map]
    have hpt : ∀ b ∈ bytes,
        ((fun v => v / 256) ∘ normSample r.bit_depth 1) b = id b := by
      intro b hbm
      have hlt := hv b hbm
      simp only [Function.comp_apply, id_eq]
      have hns : normSample r.bit_depth 1 b = b * 256 % 65536 := rfl
      rw [hns]
      omega
    rw [List.map_congr_left hpt, List.map_id]
  refine ⟨hmain, fun p rgb hd => ?_⟩
  simp only [demosaic_bayer] at hd
  rcases hq : pattern_map p with _ | code
  · rw [hq] at hd
    simp at hd
  · rw [hq] at hd
    simp only [Option.some.injEq] at hd
    rw [← hd]
    exact hmain

/-- Witness for C10 at a concrete 1-byte frame. -/
theorem C10_eight_bit_roundtrip_witness :
    (mkImage 12 1 2 1 [9, 10]).data.map (fun v => v / 256) = [9, 10] :=
  (C10_eight_bit_roundtrip ⟨2, 1, 12, 2⟩ [9, 10] (mkImage 12 1 2 1 [9, 10])
    ⟨2, 1, 12, 1⟩ (by decide) (by decide) (by decide)).1
